import Mathlib

/-!
# Verification of the selfextract self-extracting archive tool

A shallow embedding, in Lean, of the core logic of `selfextract`
(`main.go` and the builder file): the self-image reader (`readSelf`),
the archive layout written by the builder (`create`), the extraction
directory preparation state machine (`prepareExtractDir`), the
extraction loop (`extract`), the signal-handling goroutine
(`setupSignals`), and the startup-program exit-code translation
(`startup`).

Bytes are modelled as `Nat` (always < 256 in practice; no arithmetic on
them overflows). File contents and streams are `List Nat`. Filesystem
directories are modelled as flat lists of named files, which is what
the extraction-directory logic inspects (`os.ReadDir` entry count, the
key file's presence and content). Side effects that can fail
(filesystem operations, tar decoding) are modelled by explicit success
flags / outcome constructors, so every fatal `die(...)` path of the
source appears as a `fatal` result constructor.
-/

namespace Selfextract

/-! ## Constants from the source -/

/-- Constant `keyLength` from main.go: the key is 16 random bytes. -/
def keyLength : Nat := 16

/-- Constant `maxBoundaryOffset` from main.go: `100e6`, the offset at which the
boundary search stops. -/
def maxBoundaryOffset : Nat := 100000000

/-- Constant produced by `generateBoundary()` in main.go: `sha512.Sum512([]byte("boundary"))`,
a fixed 64-byte constant (spelled out here byte by byte). -/
def boundaryBytes : List Nat :=
  [41, 160, 46, 217, 231, 216, 35, 82, 88, 42, 149, 208, 71, 204, 37, 17,
   19, 19, 13, 55, 105, 41, 246, 188, 112, 147, 122, 132, 196, 153, 58, 153,
   82, 117, 5, 245, 36, 223, 118, 108, 52, 93, 165, 9, 52, 0, 217, 90,
   249, 109, 74, 86, 50, 225, 64, 102, 38, 15, 18, 169, 122, 166, 122, 67]

/-! ## Self-image reader (`readSelf`, main.go lines 94-141)

`readSelf` allocates a zero-initialised buffer of
`maxBoundaryOffset + keyLength` bytes and performs a single
`os.File.Read` into it. On Linux, a single read of a regular file
returns `min(fileSize, bufferSize)` bytes with a `nil` error, and
returns `(0, io.EOF)` only when the file is empty; the code's
`bufFull` flag is set exactly when that read returned `io.EOF`,
i.e. exactly when the file is empty. Go's slicing `buf[:m]` for
`m ≤ cap(buf)` re-extends a shortened slice into the zero-initialised
tail of the allocation, so the searched region and the key region may
include zero padding past the end of the file content; `readBuffer`
models that padded allocation. -/

/-- The full `maxBoundaryOffset + keyLength` byte allocation after the
single `Read`: file content first, zero padding after. -/
def readBuffer (file : List Nat) : List Nat :=
  file.take (maxBoundaryOffset + keyLength) ++
    List.replicate ((maxBoundaryOffset + keyLength) - file.length) 0

/-- The region searched for the boundary: `buf[:maxBoundaryOffset]`. -/
def searchBuffer (file : List Nat) : List Nat :=
  (readBuffer file).take maxBoundaryOffset

/-- Does `s` begin with `pat` (with `pat` entirely contained in `s`)?
Building block for the `bytes.Index` model. -/
def startsWith (s pat : List Nat) : Bool :=
  decide (pat.length ≤ s.length) && decide (s.take pat.length = pat)

/-- Model of `bytes.Index(s, pat)` on lists: index of the first
occurrence of `pat` fully contained in `s`, or `none` (Go's `-1`). -/
def firstMatch (pat : List Nat) : List Nat → Option Nat
  | [] => if startsWith [] pat then some 0 else none
  | a :: rest =>
    if startsWith (a :: rest) pat then some 0
    else (firstMatch pat rest).map (· + 1)

/-- Outcome of `readSelf`: a fatal exit, builder mode (no boundary:
the whole read buffer is the stub, payload nil), or extractor mode
(stub bytes, key bytes, and the file offset the payload starts at —
the code seeks the file to that offset and returns the handle as the
payload stream). -/
inductive ReadSelfResult where
  | fatal (msg : String)
  | builder (stub : List Nat)
  | extractor (stub key : List Nat) (payloadOff : Nat)
  deriving DecidableEq

/-- Function `readSelf` from main.go, over the bytes of the program's own file. -/
def readSelf (file : List Nat) : ReadSelfResult :=
  match firstMatch boundaryBytes (searchBuffer file) with
  | none =>
    -- bufFull is true exactly when the single Read returned io.EOF,
    -- i.e. exactly when the file is empty (see the section comment).
    if file.length = 0 then ReadSelfResult.fatal "boundary not found before byte 100000000"
    else ReadSelfResult.builder (file.take (maxBoundaryOffset + keyLength))
  | some bdyOff =>
    ReadSelfResult.extractor
      ((readBuffer file).take bdyOff)
      (((readBuffer file).drop (bdyOff + boundaryBytes.length)).take keyLength)
      (bdyOff + boundaryBytes.length + keyLength)

/-! ## Archive builder (`create`, builder file lines 13-43)

`create` writes, in order: the stub bytes, `generateBoundary()`, a
fresh 16-byte random key, then the zstd-compressed tar payload. The
payload is opaque here (the codec is an external library); `createBytes`
is the byte-exact layout of the produced archive. -/

/-- The byte layout of an archive produced by `create`:
`stub ‖ boundary ‖ key ‖ payload`. -/
def createBytes (stub key payload : List Nat) : List Nat :=
  stub ++ boundaryBytes ++ key ++ payload

/-! ## Signal handling (`setupSignals`, main.go lines 187-207) -/

/-- The state of the `SELFEXTRACT_GRACE_TIMEOUT` environment variable as
seen by `setupSignals`: unset (or empty), set but not parseable by
`strconv.ParseFloat`, or parsed to a (rational-valued) float. `NaN`
fails the `graceFl >= 0` test just like a negative value, so it behaves
like `parsed` of a negative rational here. -/
inductive GraceEnv where
  | unset
  | unparsable
  | parsed (q : ℚ)

/-- The grace duration in nanoseconds (`time.Duration` is an int64
nanosecond count). Default `10 * time.Second`; an env value that parses
to a non-negative float `q` yields `time.Duration(q) * time.Second`,
and Go's float-to-integer conversion truncates, so the duration is
`⌊q⌋` whole seconds. -/
def graceNanos : GraceEnv → ℤ
  | GraceEnv.unset => 10 * 1000000000
  | GraceEnv.unparsable => 10 * 1000000000
  | GraceEnv.parsed q =>
    if 0 ≤ q then ⌊q⌋ * 1000000000 else 10 * 1000000000

/-- What the signal goroutine does once a signal arrives: how long it
sleeps, and the exit code it then sends on the exit-code channel. -/
structure SignalBehavior where
  sleepNanos : ℤ
  sent : ℤ
  deriving DecidableEq

/-- The body of the goroutine installed by `setupSignals`: after a
signal, sleep for the grace duration (the sleep is skipped when it is
zero), then send 2 on the exit-code channel. -/
def signalGoroutine (env : GraceEnv) : SignalBehavior :=
  let grace := graceNanos env
  { sleepNanos := if grace = 0 then 0 else grace, sent := 2 }

/-! ## Startup program exit-code translation (`startup`, main.go 408-439) -/

/-- Outcome of `exec.Cmd.Run` on the startup program, as the code
distinguishes them: `nil` error; an `exec.ExitError` for a process that
exited with a status code (`ExitCode()` returns that code); an
`exec.ExitError` for a process terminated by a signal (`ExitCode()`
returns -1); or a non-`ExitError` error (the program could not be
started). -/
inductive CmdResult where
  | success
  | exited (code : ℕ)
  | signalled
  | startFailure
  deriving DecidableEq

/-- The value `startup` sends on the exit-code channel, which `extract`
then passes to `os.Exit`. -/
def startupExitCode (extractOnly : Bool) (r : CmdResult) : ℤ :=
  if extractOnly then 0
  else
    match r with
    | CmdResult.success => 0
    | CmdResult.exited n => n
    | CmdResult.signalled => -1
    | CmdResult.startFailure => 1

/-! ## Hex encoding and whitespace trimming

`hex.EncodeToString` writes two lowercase hex digits per byte using the
table `"0123456789abcdef"`; `strings.TrimSpace` removes leading and
trailing Unicode whitespace. -/

/-- Go's `encoding/hex` digit table, `hextable = "0123456789abcdef"`. -/
def hexTable : List Char := "0123456789abcdef".data

/-- The two lowercase hex digits of one byte (`b < 256`). -/
def hexByte (b : Nat) : List Char :=
  [hexTable.getD (b / 16) '0', hexTable.getD (b % 16) '0']

/-- Model of `hex.EncodeToString` over a byte list. -/
def hexEncode (bs : List Nat) : String :=
  String.mk ((bs.map hexByte).flatten)

/-- Model of `unicode.IsSpace`: the white-space code points recognised by Go
(`\t \n \v \f \r`, space, NEL, NBSP, and the Unicode space runes). -/
def goIsSpace (c : Char) : Bool :=
  let n := c.toNat
  (9 ≤ n && n ≤ 13) || n = 32 || n = 133 || n = 160 || n = 0x1680 ||
    (0x2000 ≤ n && n ≤ 0x200A) || n = 0x2028 || n = 0x2029 ||
    n = 0x202F || n = 0x205F || n = 0x3000

/-- Model of `strings.TrimSpace`: drop whitespace from both ends. -/
def trimSpace (s : String) : String :=
  String.mk ((((s.data.dropWhile goIsSpace).reverse).dropWhile goIsSpace).reverse)

/-! ## Extraction directory preparation (`prepareExtractDir`, main.go 218-301)

The persistent-directory branch (the `SELFEXTRACT_DIR` environment
variable is set). The state of the destination path is modelled as
`Option Dir`: `none` when `os.Stat` fails (the path does not exist —
the code assumes any stat error means that), `some d` otherwise, where
`d` records whether the path is a directory and, flatly, the named
files it contains. `os.MkdirAll` and `cleanupDir` are modelled as
succeeding (their own I/O failure paths are fatal in the code and
orthogonal to the claims). -/

/-- Constant `keyFileName` from main.go. -/
def keyFileName : String := ".selfextract.key"

/-- A filesystem node at the destination path: a directory is a flat
list of (name, content) files; `isDir = false` models a non-directory
node (its `files` are irrelevant). -/
structure Dir where
  isDir : Bool
  files : List (String × String)
  deriving DecidableEq

/-- Result of `prepareExtractDir`: proceed to extraction against the
given (possibly just created or just emptied) directory state, skip
extraction entirely (`se.skipExtract = true`, directory untouched), or
terminate fatally. -/
inductive PrepResult where
  | proceed (d : Dir)
  | skip (d : Dir)
  | fatal (msg : String)
  deriving DecidableEq

/-- Is the result the proceed-to-extraction outcome? -/
def isProceed : PrepResult → Bool
  | PrepResult.proceed _ => true
  | _ => false

/-- Function `prepareExtractDir` (persistent branch) over the destination state
and the archive's key. Mirrors main.go lines 233-286: stat failure ⇒
create the directory; not a directory ⇒ fatal; empty ⇒ proceed;
non-empty without a key file ⇒ fatal (`os.Open` fails); key file whose
trimmed content equals the hex key ⇒ skip; otherwise erase the contents
(keeping the directory) and proceed. -/
def prepareExtractDir (d : Option Dir) (key : List Nat) : PrepResult :=
  match d with
  | none => PrepResult.proceed ⟨true, []⟩
  | some dir =>
    if !dir.isDir then PrepResult.fatal "extraction directory not a directory"
    else if dir.files = [] then PrepResult.proceed dir
    else
      match dir.files.lookup keyFileName with
      | none =>
        PrepResult.fatal "opening key file (extraction dir must be empty or contain a valid key file)"
      | some content =>
        if hexEncode key = trimSpace content then PrepResult.skip dir
        else PrepResult.proceed ⟨dir.isDir, []⟩

/-! ## Path cleaning and joining (`filepath.Clean`, `filepath.Join`)

Paths are modelled as lists of components. `cleanRel` is
`filepath.Clean` on a relative path (tar entry names); the empty list
represents Go's `"."`. `joinAbs` is `filepath.Join` of an absolute,
already-clean destination directory with a cleaned relative name; a
`".."` at the root of an absolute path is discarded, as in Go. -/

/-- Lexical cleaning of a relative path, accumulator reversed. -/
def cleanRelAux : List String → List String → List String
  | acc, [] => acc.reverse
  | acc, c :: rest =>
    if c = "." || c = "" then cleanRelAux acc rest
    else if c = ".." then
      match acc with
      | [] => cleanRelAux [".."] rest
      | a :: as => if a = ".." then cleanRelAux (".." :: a :: as) rest else cleanRelAux as rest
  else cleanRelAux (c :: acc) rest

/-- Model of `filepath.Clean` on a relative path given as components; `[]`
stands for `"."`. -/
def cleanRel (comps : List String) : List String :=
  cleanRelAux [] comps

/-- Model of `filepath.Join` of an absolute clean directory with a cleaned
relative path: `".."` components pop into the parent, bottoming out at
the filesystem root. -/
def joinAbs : List String → List String → List String
  | dest, [] => dest
  | dest, c :: rest =>
    if c = ".." then joinAbs dest.dropLast rest
    else joinAbs (dest ++ [c]) rest

/-- Is `p` inside the directory `dest` (i.e. does the component list of
`dest` lead `p`)? The code never checks this; it is stated here to
express path-escape facts. -/
def withinDir (dest p : List String) : Bool :=
  decide (p.take dest.length = dest)

/-! ## Extraction loop (`extract` and `cleanupAndDie`, main.go 316-391)

The tar reader is modelled as the list of outcomes of successive
`tarRdr.Next()` calls: each call either fails (a non-EOF decode error)
or yields an entry; the end of the list is `io.EOF`. Filesystem
operations on each entry can fail; those failure switches are carried
in the entry. A fatal stop records the residual contents written by
this run that are left behind in the destination directory:
`cleanupAndDie` erases everything first (residual `[]`), while a plain
`die` leaves everything written so far. -/

/-- One tar entry as the loop consumes it: `reg` carries the success of
`createFile`, `io.Copy` and `Chmod`; `dir` of `os.Mkdir`; `symlink` of
`os.Symlink`; `other` is any other type flag (always fatal). -/
inductive EntryKind where
  | reg (createOk copyOk chmodOk : Bool)
  | dir (mkdirOk : Bool)
  | symlink (target : String) (linkOk : Bool)
  | other
  deriving DecidableEq

/-- A tar entry: the raw header name (slash-separated components) and
its kind. -/
structure TarEntry where
  name : List String
  kind : EntryKind
  deriving DecidableEq

/-- One `tarRdr.Next()` outcome. -/
inductive TarStep where
  | next (e : TarEntry)
  | fail
  deriving DecidableEq

/-- Result of the extraction loop: normal completion with the list of
paths written (in order) and whether the key file was then written, or
a fatal stop with the residual paths left in the destination. -/
inductive ExtractResult where
  | finished (writes : List (List String)) (markerWritten : Bool)
  | fatal (residual : List (List String)) (msg : String)
  deriving DecidableEq

/-- The entry loop of `extract`: `acc` is the list of paths written so
far by this run. Entry names cleaning to `"."` are skipped; every
entry-level filesystem failure goes through `cleanupAndDie` (erase the
destination's contents, then die), while a `tarRdr.Next()` error dies
without cleaning. On EOF the payload is closed and `createKeyFile`
writes the marker. -/
def extractLoop (dest : List String) : List TarStep → List (List String) → ExtractResult
  | [], acc => ExtractResult.finished acc true
  | TarStep.fail :: _, acc => ExtractResult.fatal acc "reading embedded tar"
  | TarStep.next e :: rest, acc =>
    let name := cleanRel e.name
    if name = [] then extractLoop dest rest acc
    else
      let pathName := joinAbs dest name
      match e.kind with
      | EntryKind.reg createOk copyOk chmodOk =>
        if !createOk then ExtractResult.fatal [] "creating file"
        else if !copyOk then ExtractResult.fatal [] "writing file"
        else if !chmodOk then ExtractResult.fatal [] "setting mode of file"
        else extractLoop dest rest (acc ++ [pathName])
      | EntryKind.dir mkdirOk =>
        if !mkdirOk then ExtractResult.fatal [] "creating directory"
        else extractLoop dest rest (acc ++ [pathName])
      | EntryKind.symlink _ linkOk =>
        if !linkOk then ExtractResult.fatal [] "creating symlink"
        else extractLoop dest rest (acc ++ [pathName])
      | EntryKind.other => ExtractResult.fatal [] "unsupported file type in tar"

/-- Method `se.extract()`: returns immediately when `skipExtract` is set
(no writes, marker not rewritten), otherwise runs the entry loop. -/
def runExtract (dest : List String) (skipExtract : Bool) (steps : List TarStep) : ExtractResult :=
  if skipExtract then ExtractResult.finished [] false
  else extractLoop dest steps []

/-- The persistent-destination pipeline `prepareExtractDir` followed by
`extract`: either extraction was skipped (directory state untouched,
nothing written, marker untouched), or it ran against the prepared
directory state, or preparation already died. -/
inductive PipelineResult where
  | skipped (d : Dir)
  | ran (d : Dir) (r : ExtractResult)
  | fatalPrepare (msg : String)
  deriving DecidableEq

/-- Prepare, then extract, for a persistent destination. -/
def runPersistent (d : Option Dir) (key : List Nat) (dest : List String)
    (steps : List TarStep) : PipelineResult :=
  match prepareExtractDir d key with
  | PrepResult.fatal m => PipelineResult.fatalPrepare m
  | PrepResult.skip dir => PipelineResult.skipped dir
  | PrepResult.proceed dir => PipelineResult.ran dir (runExtract dest false steps)

/-! ## Claims about the signal handler and exit codes -/

/-- C10: a grace-timeout environment value that does not parse as a
float, or parses to a negative number, is silently ignored: the default
10-second grace period is used, and `setupSignals` has no failure
outcome (the model is a total function with no fatal constructor). -/
theorem c10_bad_grace_ignored :
    graceNanos GraceEnv.unparsable = graceNanos GraceEnv.unset ∧
    (∀ q : ℚ, q < 0 → graceNanos (GraceEnv.parsed q) = graceNanos GraceEnv.unset) ∧
    graceNanos GraceEnv.unset = 10 * 1000000000 := by
  refine ⟨rfl, fun q hq => ?_, rfl⟩
  simp only [graceNanos, if_neg (not_le.mpr hq)]

/-- Witness for C10 at the concrete parsed value -1. -/
theorem c10_witness :
    (-1 : ℚ) < 0 ∧ graceNanos (GraceEnv.parsed (-1)) = graceNanos GraceEnv.unset :=
  ⟨by norm_num, c10_bad_grace_ignored.2.1 (-1) (by norm_num)⟩

/-- C6 counterexample: with the grace-timeout variable parsed to the
float 2.5, the goroutine sleeps 2 seconds, not the configured 2.5
seconds: the wait is not equal to the configured float number of
seconds. -/
theorem c6_counterexample :
    ((signalGoroutine (GraceEnv.parsed (5 / 2))).sleepNanos : ℚ) ≠ (5 / 2) * 1000000000 := by
  have h : ⌊(5 / 2 : ℚ)⌋ = 2 := by norm_num [Int.floor_eq_iff]
  norm_num [signalGoroutine, graceNanos, h]

/-- C6 amended: on receipt of an interrupt-class signal, with the
grace-timeout variable parsed to a non-negative float `q`, the handler
waits `⌊q⌋` whole seconds (Go's float-to-`time.Duration` conversion
truncates the configured value; the default is 10 seconds when unset)
and then unconditionally sends exit code 2 on the exit-code channel,
regardless of whether the startup program is still running. -/
theorem c6_grace_truncated_sends_two (q : ℚ) (hq : 0 ≤ q) :
    signalGoroutine (GraceEnv.parsed q) = ⟨⌊q⌋ * 1000000000, 2⟩ ∧
    (∀ env, (signalGoroutine env).sent = 2) ∧
    signalGoroutine GraceEnv.unset = ⟨10 * 1000000000, 2⟩ := by
  refine ⟨?_, fun env => rfl, by norm_num [signalGoroutine, graceNanos]⟩
  simp only [signalGoroutine, graceNanos, if_pos hq]
  split
  next h => simp [SignalBehavior.mk.injEq, h]
  next h => rfl

/-- Witness for C6 at the concrete parsed value 2.5. -/
theorem c6_witness :
    (0 : ℚ) ≤ 5 / 2 ∧
      signalGoroutine (GraceEnv.parsed (5 / 2)) = ⟨2000000000, 2⟩ := by
  refine ⟨by norm_num, ?_⟩
  rw [(c6_grace_truncated_sends_two (5 / 2) (by norm_num)).1]
  have h : ⌊(5 / 2 : ℚ)⌋ = 2 := by norm_num [Int.floor_eq_iff]
  rw [h]; norm_num

/-- C5 counterexample: a startup program terminated abnormally without a
distinguishable exit code (killed by a signal) makes the code send
`ExitCode()`'s value -1 on the exit-code channel, not the generic
failure code 1 claimed. -/
theorem c5_counterexample :
    startupExitCode false CmdResult.signalled = -1 ∧
    startupExitCode false CmdResult.signalled ≠ 1 := by
  refine ⟨rfl, by decide⟩

/-- C5 amended: the delivered exit code is 0 when the startup program
exits 0 or extract-only mode is set; N when it terminates with a
distinguishable exit code N; 1 when it cannot be started; -1 (not 1)
when it terminates abnormally without a distinguishable exit code; and
the signal goroutine delivers 2 after the grace period. -/
theorem c5_exit_codes :
    (∀ r, startupExitCode true r = 0) ∧
    startupExitCode false CmdResult.success = 0 ∧
    (∀ n : ℕ, startupExitCode false (CmdResult.exited n) = n) ∧
    startupExitCode false CmdResult.startFailure = 1 ∧
    startupExitCode false CmdResult.signalled = -1 ∧
    (∀ env, (signalGoroutine env).sent = 2) :=
  ⟨fun _ => rfl, rfl, fun _ => rfl, rfl, rfl, fun _ => rfl⟩

/-! ## Claims about extraction directory preparation -/

/-- C8 counterexample: a persistent destination path that exists but is
not a directory is a fatal error; the directory is not created and
extraction does not proceed. -/
theorem c8_counterexample :
    prepareExtractDir (some ⟨false, []⟩) (List.replicate 16 0)
        = PrepResult.fatal "extraction directory not a directory" ∧
    isProceed (prepareExtractDir (some ⟨false, []⟩) (List.replicate 16 0)) = false :=
  ⟨rfl, rfl⟩

/-- C8 amended: a nonexistent persistent destination path is created
(as an empty directory) and extraction proceeds; an existing path that
is not a directory is a fatal error instead. -/
theorem c8_create_or_die (key : List Nat) (files : List (String × String)) :
    prepareExtractDir none key = PrepResult.proceed ⟨true, []⟩ ∧
    prepareExtractDir (some ⟨false, files⟩) key
        = PrepResult.fatal "extraction directory not a directory" :=
  ⟨rfl, rfl⟩

/-- C1 counterexample: an existing, non-empty destination directory
with no marker file makes `prepareExtractDir` abort fatally (the key
file cannot be opened); it does not erase the contents and proceed. -/
theorem c1_counterexample :
    prepareExtractDir (some ⟨true, [("data", "x")]⟩) (List.replicate 16 0)
        = PrepResult.fatal
            "opening key file (extraction dir must be empty or contain a valid key file)" ∧
    isProceed (prepareExtractDir (some ⟨true, [("data", "x")]⟩) (List.replicate 16 0))
        = false := by
  refine ⟨by decide, by decide⟩

/-- C1 amended: for an existing, non-empty persistent extraction
directory, `prepareExtractDir` erases all of the directory's contents
(but not the directory itself) and proceeds to extraction when the
marker file is present with a mismatched key; when the marker file is
missing it aborts fatally instead. -/
theorem c1_mismatch_erases_missing_aborts (dir : Dir) (key : List Nat) (c : String)
    (hdir : dir.isDir = true) (hne : dir.files ≠ []) :
    (dir.files.lookup keyFileName = some c → hexEncode key ≠ trimSpace c →
      prepareExtractDir (some dir) key = PrepResult.proceed ⟨true, []⟩) ∧
    (dir.files.lookup keyFileName = none →
      prepareExtractDir (some dir) key
        = PrepResult.fatal
            "opening key file (extraction dir must be empty or contain a valid key file)") := by
  constructor
  · intro hm hk
    simp [prepareExtractDir, hdir, hne, hm, hk]
  · intro hm
    simp [prepareExtractDir, hdir, hne, hm]

/-- Witness for C1: a directory holding only a marker file whose key
does not match is emptied, and preparation proceeds. -/
theorem c1_witness :
    prepareExtractDir (some ⟨true, [(".selfextract.key", "beef")]⟩) (List.replicate 16 0)
      = PrepResult.proceed ⟨true, []⟩ :=
  (c1_mismatch_erases_missing_aborts ⟨true, [(".selfextract.key", "beef")]⟩
      (List.replicate 16 0) "beef" rfl (by decide)).1 (by decide) (by decide)

/-- C4: a persistent destination directory that is non-empty and whose
marker file's trimmed content equals the lowercase hex encoding of the
archive's key makes the second run skip extraction entirely: the
pipeline stops in the `skipped` state with the directory state
untouched — no filesystem writes, and the marker file not rewritten. -/
theorem c4_reuse_skips (dir : Dir) (key : List Nat) (dest : List String)
    (steps : List TarStep) (c : String)
    (hdir : dir.isDir = true) (hne : dir.files ≠ [])
    (hm : dir.files.lookup keyFileName = some c)
    (hk : trimSpace c = hexEncode key) :
    runPersistent (some dir) key dest steps = PipelineResult.skipped dir := by
  unfold runPersistent
  simp [prepareExtractDir, hdir, hne, hm, hk]

/-- Witness for C4 at the all-zero key (hex `"00…0"`). -/
theorem c4_witness :
    runPersistent
        (some ⟨true, [(".selfextract.key", "00000000000000000000000000000000")]⟩)
        (List.replicate 16 0) ["tmp", "dest"] []
      = PipelineResult.skipped
          ⟨true, [(".selfextract.key", "00000000000000000000000000000000")]⟩ :=
  c4_reuse_skips _ (List.replicate 16 0) ["tmp", "dest"] []
    "00000000000000000000000000000000" rfl (by decide) (by decide) (by decide)

/-! ## Claims about the extraction loop -/

/-- C9: the extraction loop skips exactly the entries whose cleaned
path is `"."` and performs no containment check: an entry named
`"../x"` is written to the destination's parent, outside the
destination directory. -/
theorem c9_path_escape :
    extractLoop ["tmp", "dest"]
        [TarStep.next ⟨["..", "x"], EntryKind.reg true true true⟩] []
        = ExtractResult.finished [["tmp", "x"]] true ∧
    withinDir ["tmp", "dest"] ["tmp", "x"] = false ∧
    extractLoop ["tmp", "dest"] [TarStep.next ⟨["."], EntryKind.reg true true true⟩] []
        = ExtractResult.finished [] true := by
  refine ⟨by decide, by decide, by decide⟩

/-- C7 counterexample: when reading the next tar entry fails after a
file has already been extracted, the code dies without erasing: the
already-written file remains in the destination directory. -/
theorem c7_counterexample :
    extractLoop ["tmp", "dest"]
        [TarStep.next ⟨["a"], EntryKind.reg true true true⟩, TarStep.fail] []
      = ExtractResult.fatal [["tmp", "dest", "a"]] "reading embedded tar" ∧
    [["tmp", "dest", "a"]] ≠ ([] : List (List String)) :=
  ⟨by decide, by decide⟩

/-- C7 amended: every entry-level filesystem failure (creating a file,
directory or symlink, writing file content, setting the file mode, or
an unsupported entry type) erases everything written so far in the
destination directory before failing fatally — so when the step
sequence contains no tar-decode failure, any fatal stop leaves an empty
residual; a failure to read or decode the next container entry,
however, dies without erasing. -/
theorem c7_cleanup_on_entry_failures (dest : List String) :
    ∀ (steps : List TarStep) (acc residual : List (List String)) (msg : String),
      TarStep.fail ∉ steps →
      extractLoop dest steps acc = ExtractResult.fatal residual msg →
      residual = [] := by
  intro steps
  induction steps with
  | nil =>
    intro acc r m _ h
    simp [extractLoop] at h
  | cons s rest ih =>
    intro acc r m hno h
    cases s with
    | fail => exact absurd (List.mem_cons_self _ _) hno
    | next e =>
      have hrest : TarStep.fail ∉ rest := fun hr => hno (List.mem_cons_of_mem _ hr)
      simp only [extractLoop] at h
      by_cases hname : cleanRel e.name = []
      · rw [if_pos hname] at h
        exact ih acc r m hrest h
      · rw [if_neg hname] at h
        rcases e with ⟨nm, k⟩
        cases k with
        | reg createOk copyOk chmodOk =>
          cases createOk <;> cases copyOk <;> cases chmodOk <;> simp at h
          all_goals
            first
            | exact h.1.symm
            | exact h.1
            | exact ih _ r m hrest h
        | dir mkdirOk =>
          cases mkdirOk <;> simp at h
          all_goals
            first
            | exact h.1.symm
            | exact h.1
            | exact ih _ r m hrest h
        | symlink target linkOk =>
          cases linkOk <;> simp at h
          all_goals
            first
            | exact h.1.symm
            | exact h.1
            | exact ih _ r m hrest h
        | other =>
          simp only [ExtractResult.fatal.injEq] at h
          exact h.1.symm

/-- Witness for C7: a single entry whose file creation fails leaves an
empty residual. -/
theorem c7_witness :
    TarStep.fail ∉ [TarStep.next ⟨["a"], EntryKind.reg false true true⟩] ∧
    ([] : List (List String)) = [] :=
  ⟨by decide,
   c7_cleanup_on_entry_failures ["tmp"]
     [TarStep.next ⟨["a"], EntryKind.reg false true true⟩] [] [] "creating file"
     (by decide) rfl⟩

/-! ## Lemmas about the self-image reader -/

/-- The boundary constant is 64 bytes long. -/
theorem boundaryBytes_length : boundaryBytes.length = 64 := rfl

/-- Unfolding of `startsWith` into its two conditions. -/
theorem startsWith_true_iff (s pat : List Nat) :
    startsWith s pat = true ↔ pat.length ≤ s.length ∧ s.take pat.length = pat := by
  simp [startsWith]

/-- A list shorter than the boundary cannot start with it. -/
theorem startsWith_false_of_short (s : List Nat)
    (h : s.length < boundaryBytes.length) :
    startsWith s boundaryBytes = false := by
  unfold startsWith
  rw [decide_eq_false (not_le.mpr h), Bool.false_and]

/-- A list starting with the boundary has 41 as its first byte. -/
theorem startsWith_boundary_head (s : List Nat)
    (h : startsWith s boundaryBytes = true) : s[0]? = some 41 := by
  rw [startsWith_true_iff] at h
  have h0 : (s.take boundaryBytes.length)[0]? = boundaryBytes[0]? := by rw [h.2]
  rw [List.getElem?_take_of_lt (by rw [boundaryBytes_length]; omega)] at h0
  exact h0.trans rfl

/-- All-zero regions never start with the boundary. -/
theorem startsWith_replicate_zero (m : Nat) :
    startsWith (List.replicate m (0 : Nat)) boundaryBytes = false := by
  by_cases h : boundaryBytes.length ≤ m
  · have hne : (List.replicate m (0 : Nat)).take boundaryBytes.length ≠ boundaryBytes := by
      rw [List.take_replicate, boundaryBytes_length] at *
      rw [Nat.min_eq_left (boundaryBytes_length ▸ h)]
      decide
    unfold startsWith
    rw [decide_eq_false hne, Bool.and_false]
  · exact startsWith_false_of_short _ (by rw [List.length_replicate]; omega)

/-- The index search finds nothing when no position matches. -/
theorem firstMatch_eq_none (pat s : List Nat)
    (h : ∀ q, startsWith (s.drop q) pat = false) : firstMatch pat s = none := by
  induction s with
  | nil =>
    have h0 := h 0
    simp only [List.drop_nil] at h0
    simp [firstMatch, h0]
  | cons a rest ih =>
    have h0 := h 0
    simp only [List.drop_zero] at h0
    have ht : ∀ q, startsWith (rest.drop q) pat = false := by
      intro q
      have hq := h (q + 1)
      simpa only [List.drop_succ_cons] using hq
    simp [firstMatch, h0, ih ht]

/-- The index search returns the first matching position. -/
theorem firstMatch_eq_some (pat : List Nat) :
    ∀ (s : List Nat) (p : Nat),
      startsWith (s.drop p) pat = true →
      (∀ q, q < p → startsWith (s.drop q) pat = false) →
      firstMatch pat s = some p := by
  intro s
  induction s with
  | nil =>
    intro p hp hq
    cases p with
    | zero =>
      simp only [List.drop_nil] at hp
      simp [firstMatch, hp]
    | succ n =>
      have h0 := hq 0 (Nat.succ_pos n)
      simp only [List.drop_nil] at hp h0
      rw [hp] at h0
      exact absurd h0 (by decide)
  | cons a rest ih =>
    intro p hp hq
    cases p with
    | zero =>
      simp only [List.drop_zero] at hp
      simp [firstMatch, hp]
    | succ n =>
      have h0 := hq 0 (Nat.succ_pos n)
      simp only [List.drop_zero] at h0
      have hp2 : startsWith (rest.drop n) pat = true := by
        simpa only [List.drop_succ_cons] using hp
      have hq2 : ∀ q, q < n → startsWith (rest.drop q) pat = false := by
        intro q hqn
        have hs := hq (q + 1) (by omega)
        simpa only [List.drop_succ_cons] using hs
      simp [firstMatch, h0, ih n hp2 hq2]

/-- The read buffer is the file followed by the allocation's zero
padding, cut to the allocation size. -/
theorem readBuffer_eq (f : List Nat) :
    readBuffer f
      = (f ++ List.replicate (maxBoundaryOffset + keyLength) 0).take
          (maxBoundaryOffset + keyLength) := by
  unfold readBuffer
  rw [List.take_append_eq_append_take, List.take_replicate,
    Nat.min_eq_left (Nat.sub_le _ _)]

/-- The searched region is the first `maxBoundaryOffset` bytes of the
padded allocation. -/
theorem searchBuffer_eq (f : List Nat) :
    searchBuffer f
      = (f ++ List.replicate (maxBoundaryOffset + keyLength) 0).take maxBoundaryOffset := by
  unfold searchBuffer
  rw [readBuffer_eq, List.take_take, Nat.min_eq_left (Nat.le_add_right _ _)]

/-- The boundary constant has no nontrivial border: no proper nonempty
suffix of it is also one of its prefixes. -/
theorem boundary_no_border :
    ∀ j, j < 64 → 1 ≤ j →
      boundaryBytes.take (64 - j) ≠ boundaryBytes.drop j := by decide

/-- The builder-mode branch of `readSelf`: no boundary found and a
non-empty file. -/
theorem readSelf_builder (f : List Nat)
    (hnone : firstMatch boundaryBytes (searchBuffer f) = none)
    (hne : ¬ f.length = 0) :
    readSelf f = ReadSelfResult.builder (f.take (maxBoundaryOffset + keyLength)) := by
  unfold readSelf
  rw [hnone, if_neg hne]

/-- The extractor-mode branch of `readSelf`: boundary found at `b`. -/
theorem readSelf_found (f : List Nat) (b : Nat)
    (hsome : firstMatch boundaryBytes (searchBuffer f) = some b) :
    readSelf f = ReadSelfResult.extractor
      ((readBuffer f).take b)
      (((readBuffer f).drop (b + boundaryBytes.length)).take keyLength)
      (b + boundaryBytes.length + keyLength) := by
  unfold readSelf
  rw [hsome]

/-- C2 (code-bug exhibit): a self image larger than the read buffer,
containing no boundary, is reported as builder mode — the whole read
buffer becomes the stub — although the search cap was exhausted without
reaching end-of-file, which the claim and the spec say must be a fatal
error. The single `Read` returns `io.EOF` only for an empty file, so
the code's `bufFull` test can never fire for an oversized image (and
fires, spuriously, exactly on an empty one). -/
theorem c2_oversized_file_enters_builder_mode :
    readSelf (List.replicate (maxBoundaryOffset + keyLength + 1) 0)
      = ReadSelfResult.builder (List.replicate (maxBoundaryOffset + keyLength) 0) := by
  have hsearch :
      searchBuffer (List.replicate (maxBoundaryOffset + keyLength + 1) 0)
        = List.replicate maxBoundaryOffset 0 := by
    rw [searchBuffer_eq, List.append_replicate_replicate, List.take_replicate,
      Nat.min_eq_left (by omega)]
  have hnone :
      firstMatch boundaryBytes
        (searchBuffer (List.replicate (maxBoundaryOffset + keyLength + 1) 0)) = none := by
    rw [hsearch]
    exact firstMatch_eq_none _ _ fun q => by
      rw [List.drop_replicate]; exact startsWith_replicate_zero _
  rw [readSelf_builder _ hnone (by rw [List.length_replicate]; omega)]
  rw [List.take_replicate, Nat.min_eq_left (by omega)]

/-- C3 amended: for every archive produced by the builder whose stub
contains no occurrence of the 64-byte boundary constant and whose stub,
together with the 64-byte boundary after it, lies within the search cap
(`stub.length + 64 ≤ maxBoundaryOffset`), the self-image reader
recovers the same stub bytes, the same 16-byte key at offset
`boundary_offset + 64`, and the payload starting exactly at offset
`boundary_offset + 64 + 16` of the file whose layout is
`stub ‖ boundary ‖ key ‖ payload`. -/
theorem c3_roundtrip (stub key payload : List Nat)
    (hkey : key.length = keyLength)
    (hcap : stub.length + boundaryBytes.length ≤ maxBoundaryOffset)
    (hstub : ∀ q, startsWith (stub.drop q) boundaryBytes = false) :
    readSelf (createBytes stub key payload)
        = ReadSelfResult.extractor stub key
            (stub.length + boundaryBytes.length + keyLength) ∧
      (createBytes stub key payload).drop
          (stub.length + boundaryBytes.length + keyLength) = payload := by
  have hbl : boundaryBytes.length = 64 := boundaryBytes_length
  have hkl : keyLength = 16 := rfl
  have hE : createBytes stub key payload ++ List.replicate (maxBoundaryOffset + keyLength) 0
      = stub ++ (boundaryBytes ++ (key ++ (payload ++
          List.replicate (maxBoundaryOffset + keyLength) 0))) := by
    simp [createBytes, List.append_assoc]
  have hfound :
      startsWith ((searchBuffer (createBytes stub key payload)).drop stub.length)
        boundaryBytes = true := by
    rw [searchBuffer_eq, List.drop_take, hE, List.drop_left]
    rw [startsWith_true_iff]
    constructor
    · simp only [List.length_take, List.length_append]
      omega
    · rw [List.take_take, Nat.min_eq_left (by omega), List.take_left]
  have hbefore : ∀ q, q < stub.length →
      startsWith ((searchBuffer (createBytes stub key payload)).drop q)
        boundaryBytes = false := by
    intro q hq
    rw [searchBuffer_eq, List.drop_take]
    cases h2 : startsWith
        (List.take (maxBoundaryOffset - q)
          ((createBytes stub key payload ++
            List.replicate (maxBoundaryOffset + keyLength) 0).drop q))
        boundaryBytes with
    | false => rfl
    | true =>
      exfalso
      rw [startsWith_true_iff] at h2
      have htake := h2.2
      rw [List.take_take, Nat.min_eq_left (by omega)] at htake
      rw [hE, List.drop_append_of_le_length (by omega)] at htake
      rw [List.take_append_eq_append_take] at htake
      by_cases hcase : q + boundaryBytes.length ≤ stub.length
      · rw [show boundaryBytes.length - (stub.drop q).length = 0 by
            rw [List.length_drop]; omega,
          List.take_zero, List.append_nil] at htake
        have hT : startsWith (stub.drop q) boundaryBytes = true :=
          (startsWith_true_iff _ _).mpr ⟨by rw [List.length_drop]; omega, htake⟩
        rw [hstub q] at hT
        exact absurd hT (by decide)
      · rw [List.take_append_of_le_length (by rw [List.length_drop]; omega),
          List.take_of_length_le (by rw [List.length_drop]; omega)] at htake
        have h3 := congrArg (fun l => List.drop (stub.drop q).length l) htake
        simp only [List.drop_left] at h3
        have hj1 : (stub.drop q).length < 64 := by rw [List.length_drop]; omega
        have hj2 : 1 ≤ (stub.drop q).length := by rw [List.length_drop]; omega
        have hnb := boundary_no_border (stub.drop q).length hj1 hj2
        rw [show (64 : Nat) = boundaryBytes.length from rfl] at hnb
        exact absurd h3 hnb
  have hsome :
      firstMatch boundaryBytes (searchBuffer (createBytes stub key payload))
        = some stub.length :=
    firstMatch_eq_some _ _ _ hfound hbefore
  constructor
  · rw [readSelf_found _ _ hsome]
    have hstubpart :
        (readBuffer (createBytes stub key payload)).take stub.length = stub := by
      rw [readBuffer_eq, List.take_take, Nat.min_eq_left (by omega), hE, List.take_left]
    have hkeypart :
        ((readBuffer (createBytes stub key payload)).drop
            (stub.length + boundaryBytes.length)).take keyLength = key := by
      rw [readBuffer_eq, List.drop_take, List.take_take, Nat.min_eq_left (by omega)]
      have hE2 : createBytes stub key payload ++
            List.replicate (maxBoundaryOffset + keyLength) 0
          = (stub ++ boundaryBytes) ++ (key ++ (payload ++
              List.replicate (maxBoundaryOffset + keyLength) 0)) := by
        simp [createBytes, List.append_assoc]
      rw [hE2, List.drop_left' (by simp), List.take_left' hkey]
    rw [hstubpart, hkeypart]
  · have hE3 : createBytes stub key payload
        = ((stub ++ boundaryBytes) ++ key) ++ payload := by
      simp [createBytes, List.append_assoc]
    rw [hE3, List.drop_left' (by rw [List.length_append, List.length_append, hkey])]

/-- Witness for C3 at a tiny concrete archive. -/
theorem c3_witness :
    ((List.replicate 16 (7 : Nat)).length = keyLength ∧
      [1, 2, 3].length + boundaryBytes.length ≤ maxBoundaryOffset) ∧
    readSelf (createBytes [1, 2, 3] (List.replicate 16 7) [9])
        = ReadSelfResult.extractor [1, 2, 3] (List.replicate 16 7)
            ([1, 2, 3].length + boundaryBytes.length + keyLength) ∧
    (createBytes [1, 2, 3] (List.replicate 16 7) [9]).drop
        ([1, 2, 3].length + boundaryBytes.length + keyLength) = [9] := by
  refine ⟨⟨by decide, by decide⟩, ?_⟩
  exact c3_roundtrip [1, 2, 3] (List.replicate 16 7) [9] (by decide) (by decide)
    (fun q => startsWith_false_of_short _
      (by simp [boundaryBytes_length]; omega))

/-- C3 counterexample: a boundary-free stub whose length is within the
search cap but whose appended boundary crosses the cap. The stub
contains no occurrence of the boundary and its length is at most the
cap, yet the reader reports builder mode instead of recovering stub,
key and payload. -/
theorem c3_counterexample :
    firstMatch boundaryBytes (List.replicate (maxBoundaryOffset - 63) 0) = none ∧
    (List.replicate (maxBoundaryOffset - 63) (0 : Nat)).length ≤ maxBoundaryOffset ∧
    readSelf (createBytes (List.replicate (maxBoundaryOffset - 63) 0)
        (List.replicate 16 1) [9])
      = ReadSelfResult.builder
          ((createBytes (List.replicate (maxBoundaryOffset - 63) 0)
              (List.replicate 16 1) [9]).take (maxBoundaryOffset + keyLength)) := by
  refine ⟨?_, ?_, ?_⟩
  · exact firstMatch_eq_none _ _ fun q => by
      rw [List.drop_replicate]; exact startsWith_replicate_zero _
  · rw [List.length_replicate]; omega
  · have hnone :
        firstMatch boundaryBytes
          (searchBuffer (createBytes (List.replicate (maxBoundaryOffset - 63) 0)
            (List.replicate 16 1) [9])) = none := by
      apply firstMatch_eq_none
      intro q
      rw [searchBuffer_eq, List.drop_take]
      by_cases hq : q < maxBoundaryOffset - 63
      · cases h2 : startsWith
            (List.take (maxBoundaryOffset - q)
              ((createBytes (List.replicate (maxBoundaryOffset - 63) 0)
                  (List.replicate 16 1) [9] ++
                List.replicate (maxBoundaryOffset + keyLength) 0).drop q))
            boundaryBytes with
        | false => rfl
        | true =>
          exfalso
          have hhead := startsWith_boundary_head _ h2
          rw [List.getElem?_take_of_lt (by omega)] at hhead
          have hE : createBytes (List.replicate (maxBoundaryOffset - 63) 0)
                (List.replicate 16 1) [9] ++
                List.replicate (maxBoundaryOffset + keyLength) 0
              = List.replicate (maxBoundaryOffset - 63) 0 ++
                  (boundaryBytes ++ (List.replicate 16 1 ++ ([9] ++
                    List.replicate (maxBoundaryOffset + keyLength) 0))) := by
            simp [createBytes, List.append_assoc]
          rw [hE, List.drop_append_of_le_length (by rw [List.length_replicate]; omega),
            List.drop_replicate] at hhead
          rw [List.getElem?_append_left (by rw [List.length_replicate]; omega)] at hhead
          rw [List.getElem?_replicate_of_lt (by omega)] at hhead
          exact absurd hhead (by decide)
      · apply startsWith_false_of_short
        rw [boundaryBytes_length, List.length_take]
        omega
    rw [readSelf_builder _ hnone (by
      unfold createBytes
      rw [List.length_append, List.length_append, List.length_append,
        List.length_replicate, List.length_replicate]
      omega)]

end Selfextract
